import Mathlib

/-!
Shallow embedding of the per-frame rendering core of the learn-vulkan-cpp
repository: the swapchain negotiation helpers (`chooseSwapSurfaceFormat`,
`chooseSwapExtent`, the image-count computation of `createSwapChain` from
`src/hello_triangle_2.cpp`) and the frame-loop driver
(`drawFrame`, `recordCommandBuffer`, `cleanupSwapChain`, `recreateSwapChain`
from `src/archives/hello_triangle_8.cpp`).

External results (Vulkan call return codes, the framebuffer sizes reported
by the windowing layer) are inputs; stateful code is embedded as explicit
state passing returning a trace of the externally visible calls it makes.
uint32 quantities are `Nat` with an explicit `% 2^32` where C++ unsigned
arithmetic can wrap.
-/

namespace VulkanRenderer

/-- Largest value of a C++ `uint32_t`; the sentinel `chooseSwapExtent` tests
`currentExtent.width` against (`std::numeric_limits<uint32_t>::max()`). -/
def UINT32_MAX : Nat := 2 ^ 32 - 1

/-- The frames-in-flight constant, `const int MAX_FRAMES_IN_FLIGHT = 2;` in
`src/archives/hello_triangle_8.cpp` line 38. -/
def MAX_FRAMES_IN_FLIGHT : Nat := 2

/-- The Vulkan result codes the frame loop distinguishes: success, the
suboptimal-but-usable code `VK_SUBOPTIMAL_KHR`, the stale-surface code
`VK_ERROR_OUT_OF_DATE_KHR`, and any other (failure) code. -/
inductive VkResult where
  | success
  | suboptimalKHR
  | errorOutOfDateKHR
  | otherError
deriving DecidableEq, Repr

/-- The structure `VkExtent2D`: a width and a height in pixels (uint32 in the source). -/
structure VkExtent2D where
  width : Nat
  height : Nat
deriving DecidableEq, Repr

/-- The fields of `VkSurfaceCapabilitiesKHR` the code reads. -/
structure VkSurfaceCapabilitiesKHR where
  minImageCount : Nat
  maxImageCount : Nat
  currentExtent : VkExtent2D
  minImageExtent : VkExtent2D
  maxImageExtent : VkExtent2D
deriving DecidableEq, Repr

/-- The structure `VkSurfaceFormatKHR`: a pixel format and a color space, kept as the raw
numeric enumerant values of the Vulkan headers. -/
structure VkSurfaceFormatKHR where
  format : Nat
  colorSpace : Nat
deriving DecidableEq, Repr

/-- Numeric value of the Vulkan enumerant `VK_FORMAT_B8G8R8A8_SRGB`. -/
def VK_FORMAT_B8G8R8A8_SRGB : Nat := 50

/-- Numeric value of the Vulkan enumerant `VK_COLOR_SPACE_SRGB_NONLINEAR_KHR`. -/
def VK_COLOR_SPACE_SRGB_NONLINEAR_KHR : Nat := 0

/-- The call `std::clamp(v, lo, hi)` as the C++ standard library computes it:
`v < lo ? lo : hi < v ? hi : v`. -/
def stdClamp (v lo hi : Nat) : Nat :=
  if v < lo then lo else if hi < v then hi else v

/-- The predicate of the loop in `chooseSwapSurfaceFormat`
(`src/hello_triangle_2.cpp` lines 193-218): an 8-bit-per-channel BGRA format
paired with the standard non-linear SRGB color space. -/
def isPreferredSurfaceFormat (f : VkSurfaceFormatKHR) : Bool :=
  f.format == VK_FORMAT_B8G8R8A8_SRGB && f.colorSpace == VK_COLOR_SPACE_SRGB_NONLINEAR_KHR

/-- The function `chooseSwapSurfaceFormat` from `src/hello_triangle_2.cpp` lines 193-218:
scan `availableFormats` in order and return the first entry matching
`isPreferredSurfaceFormat`; if the loop finds none, return
`availableFormats[0]` (`none` models the out-of-bounds access on an empty
vector, which the source never performs). -/
def chooseSwapSurfaceFormat (availableFormats : List VkSurfaceFormatKHR) :
    Option VkSurfaceFormatKHR :=
  match availableFormats.find? (fun f => isPreferredSurfaceFormat f) with
  | some f => some f
  | none => availableFormats.head?

/-- The function `chooseSwapExtent` from `src/hello_triangle_2.cpp` lines 344-361.
`fbWidth`/`fbHeight` are the pixel size `glfwGetFramebufferSize` reports for
the window; the source casts them to uint32. When `currentExtent.width`
differs from the `UINT32_MAX` sentinel the source returns `currentExtent`
as is; otherwise it clamps each framebuffer component into
`[minImageExtent, maxImageExtent]`. -/
def chooseSwapExtent (capabilities : VkSurfaceCapabilitiesKHR)
    (fbWidth fbHeight : Nat) : VkExtent2D :=
  if capabilities.currentExtent.width ≠ UINT32_MAX then
    capabilities.currentExtent
  else
    { width := stdClamp fbWidth capabilities.minImageExtent.width
        capabilities.maxImageExtent.width,
      height := stdClamp fbHeight capabilities.minImageExtent.height
        capabilities.maxImageExtent.height }

/-- The image-count computation of `createSwapChain`
(`src/hello_triangle_2.cpp` lines 369-374): `minImageCount + 1` in uint32
arithmetic (hence the `% 2^32`), lowered to `maxImageCount` when the latter
is nonzero and exceeded. -/
def createSwapChainImageCount (capabilities : VkSurfaceCapabilitiesKHR) : Nat :=
  let imageCount := (capabilities.minImageCount + 1) % 2 ^ 32
  if capabilities.maxImageCount > 0 ∧ imageCount > capabilities.maxImageCount then
    capabilities.maxImageCount
  else
    imageCount

/-- The swapchain-owned objects of the application class: the chain handle,
its images, the per-image views and framebuffers, and the shared extent.
Handles are abstract numerals. -/
structure ChainData where
  swapChain : Nat
  images : List Nat
  imageViews : List Nat
  framebuffers : List Nat
  extent : VkExtent2D
deriving DecidableEq, Repr

/-- The renderer state of `HelloTriangleApplication` in
`src/archives/hello_triangle_8.cpp` that the frame loop reads or writes:
chain objects, render pass, pipeline objects, geometry buffers, per-frame
descriptor sets and synchronization objects, the ring index
`currentFrame_`, and the resize flag set by the window callback. A fence is
modelled by its CPU-visible signaled state (`true` = signaled). -/
structure RendererState where
  chain : ChainData
  renderPass : Nat
  pipelineLayout : Nat
  graphicsPipeline : Nat
  vertexBuffer : Nat
  indexBuffer : Nat
  descriptorSets : List Nat
  imageAvailableSemaphores : List Nat
  renderFinishedSemaphores : List Nat
  inFlightFences : List Bool
  currentFrame : Nat
  framebufferResized : Bool
deriving DecidableEq, Repr

/-- The index data `const std::vector<uint16_t> indices = {0, 1, 2, 2, 3, 0};`
of `src/archives/hello_triangle_8.cpp`. -/
def indices : List Nat := [0, 1, 2, 2, 3, 0]

/-- One recorded command, mirroring the `vkCmd`/begin/end calls that
`recordCommandBuffer` issues into the command buffer. -/
inductive Cmd where
  | beginBuffer
  | beginRenderPass (renderPass framebuffer : Nat) (extent : VkExtent2D)
  | bindPipeline (pipeline : Nat)
  | bindVertexBuffers (buffer : Nat)
  | bindIndexBuffer (buffer : Nat)
  | setViewport (width height : Nat)
  | setScissor (extent : VkExtent2D)
  | bindDescriptorSets (layout descriptorSet : Nat)
  | drawIndexed (indexCount instanceCount firstIndex vertexOffset firstInstance : Nat)
  | endRenderPass
  | endBuffer
deriving DecidableEq, Repr

/-- The fatal error kinds the embedded fragment can raise, matching the
`std::runtime_error` throws of the source. The two index errors stand for
the out-of-bounds vector accesses the source relies on never happening. -/
inductive FrameError where
  | commandRecordingBeginError
  | commandRecordingEndError
  | framebufferIndexError
  | descriptorIndexError
  | acquireImageError
  | submitError
  | presentError
deriving DecidableEq, Repr

deriving instance DecidableEq for Except

/-- The member function `recordCommandBuffer` from `src/archives/hello_triangle_8.cpp` lines
703-794, with the application state threaded explicitly. `beginOk`/`endOk`
are the results of `vkBeginCommandBuffer`/`vkEndCommandBuffer`; the prior
buffer contents (`commandBuffer`) are discarded because beginning a buffer
implicitly resets it. The function reads `swapChainFramebuffers_[imageIndex]`
and `descriptorSets_[currentFrame_]` and issues the straight-line command
sequence; it returns the state it was given alongside the outcome. -/
def recordCommandBuffer (beginOk endOk : Bool) (st : RendererState)
    (commandBuffer : List Cmd) (imageIndex : Nat) :
    RendererState × Except FrameError (List Cmd) :=
  if !beginOk then
    (st, Except.error FrameError.commandRecordingBeginError)
  else
    match st.chain.framebuffers.get? imageIndex, st.descriptorSets.get? st.currentFrame with
    | some framebuffer, some descriptorSet =>
      let recorded : List Cmd :=
        [ Cmd.beginBuffer,
          Cmd.beginRenderPass st.renderPass framebuffer st.chain.extent,
          Cmd.bindPipeline st.graphicsPipeline,
          Cmd.bindVertexBuffers st.vertexBuffer,
          Cmd.bindIndexBuffer st.indexBuffer,
          Cmd.setViewport st.chain.extent.width st.chain.extent.height,
          Cmd.setScissor st.chain.extent,
          Cmd.bindDescriptorSets st.pipelineLayout descriptorSet,
          Cmd.drawIndexed indices.length 1 0 0 0,
          Cmd.endRenderPass,
          Cmd.endBuffer ]
      if endOk then (st, Except.ok recorded)
      else (st, Except.error FrameError.commandRecordingEndError)
    | none, _ => (st, Except.error FrameError.framebufferIndexError)
    | some _, none => (st, Except.error FrameError.descriptorIndexError)

/-- The externally visible calls of one frame-loop iteration and of swapchain
recreation/teardown, in program order. -/
inductive Event where
  | pollFramebufferSize (width height : Nat)
  | waitEvents
  | deviceWaitIdle
  | destroyImageView (view : Nat)
  | destroyFramebuffer (framebuffer : Nat)
  | destroySwapchain (swapChain : Nat)
  | createSwapChain
  | createImageViews
  | createFramebuffers
  | waitFence (slot : Nat)
  | acquireNextImage (slot : Nat)
  | resetFence (slot : Nat)
  | resetCommandBuffer (slot : Nat)
  | recordBuffer (slot imageIndex : Nat)
  | updateUniformBuffer (slot : Nat)
  | queueSubmit (slot : Nat)
  | queuePresent (imageIndex : Nat)
  | recreateChain
deriving DecidableEq, Repr

/-- True exactly on the image-view destruction event. -/
def Event.isDestroyImageView : Event → Bool
  | Event.destroyImageView _ => true
  | _ => false

/-- True exactly on the framebuffer destruction event. -/
def Event.isDestroyFramebuffer : Event → Bool
  | Event.destroyFramebuffer _ => true
  | _ => false

/-- True exactly on the size-poll and event-wait calls of the minimized-window
loop. -/
def Event.isPollOrWait : Event → Bool
  | Event.pollFramebufferSize _ _ => true
  | Event.waitEvents => true
  | _ => false

/-- The member function `cleanupSwapChain` from `src/archives/hello_triangle_8.cpp` lines 348-361
(the same destroy sequence opens `cleanup` in `src/hello_triangle_2.cpp`
lines 1827-1839): the ordered sequence of destroy calls it issues — every
image view, then every framebuffer, then the swapchain handle. -/
def cleanupSwapChain (st : RendererState) : List Event :=
  st.chain.imageViews.map Event.destroyImageView
    ++ st.chain.framebuffers.map Event.destroyFramebuffer
    ++ [Event.destroySwapchain st.chain.swapChain]

/-- The teardown order claimed by the specification, for comparison with
`cleanupSwapChain`: all framebuffers first, then all image views, then the
swapchain object. -/
def specCleanupOrder (st : RendererState) : List Event :=
  st.chain.framebuffers.map Event.destroyFramebuffer
    ++ st.chain.imageViews.map Event.destroyImageView
    ++ [Event.destroySwapchain st.chain.swapChain]

/-- The loop condition of the minimized-window wait in `recreateSwapChain`:
`width == 0 || height == 0`. -/
def framebufferSizeIsZero (size : Nat × Nat) : Bool :=
  size.1 == 0 || size.2 == 0

/-- The busy-wait of `recreateSwapChain` (`src/archives/hello_triangle_8.cpp`
lines 382-388) over the stream `sizes` of framebuffer sizes successive
`glfwGetFramebufferSize` calls report: starting from poll index `k`, return
the first index whose reported size is nonzero in both components. `fuel`
bounds the number of polls so the embedding stays total; `none` means the
window never left the minimized state within `fuel` polls (the source would
still be waiting). -/
def minimizedWaitLoop (sizes : Nat → Nat × Nat) : Nat → Nat → Option Nat
  | 0, _ => none
  | fuel + 1, k =>
    if framebufferSizeIsZero (sizes k) then minimizedWaitLoop sizes fuel (k + 1)
    else some k

/-- The poll trace of the minimized-window wait when poll `k` is the first
nonzero report: the initial `glfwGetFramebufferSize` call, then for each
loop pass one further size poll followed by `glfwWaitEvents`. -/
def pollTrace (sizes : Nat → Nat × Nat) (k : Nat) : List Event :=
  Event.pollFramebufferSize (sizes 0).1 (sizes 0).2 ::
    ((List.range k).map (fun i =>
      [Event.pollFramebufferSize (sizes (i + 1)).1 (sizes (i + 1)).2,
       Event.waitEvents])).flatten

/-- The member function `recreateSwapChain` from `src/archives/hello_triangle_8.cpp` lines
379-398: busy-wait while the reported framebuffer size has a zero component,
then `vkDeviceWaitIdle`, the `cleanupSwapChain` destroy sequence, and the
three rebuild steps. `newChain` stands for the chain objects the rebuild
produces (their negotiation is embedded separately via
`chooseSwapSurfaceFormat`/`chooseSwapExtent`/`createSwapChainImageCount`). -/
def recreateSwapChain (sizes : Nat → Nat × Nat) (fuel : Nat)
    (st : RendererState) (newChain : ChainData) :
    Option (List Event × RendererState) :=
  match minimizedWaitLoop sizes fuel 0 with
  | none => none
  | some k =>
    some (pollTrace sizes k
            ++ [Event.deviceWaitIdle]
            ++ cleanupSwapChain st
            ++ [Event.createSwapChain, Event.createImageViews, Event.createFramebuffers],
          { st with chain := newChain })

/-- The per-iteration inputs of `drawFrame` decided outside the embedded
fragment: the `vkAcquireNextImageKHR` result and the image index it writes,
the `vkBeginCommandBuffer`/`vkEndCommandBuffer` results inside recording,
the `vkQueueSubmit` result, and the `vkQueuePresentKHR` result. -/
structure DrawFrameInputs where
  acquireResult : VkResult
  imageIndex : Nat
  beginOk : Bool
  endOk : Bool
  submitResult : VkResult
  presentResult : VkResult
deriving DecidableEq, Repr

/-- The member function `drawFrame` from `src/archives/hello_triangle_8.cpp` lines 867-976, as a
state transformer returning the trace of calls it made and either the fatal
error it throws or the updated state. `rebuiltChain` stands for the chain
the inner `recreateSwapChain` call builds when taken (modelled by the single
`Event.recreateChain` trace entry; the recreation internals are embedded in
`recreateSwapChain`). Waiting on a fence does not change its state; the
fence of the current slot is set unsignaled only by the `vkResetFences` call
after a usable acquire; `currentFrame_` advances modulo
`MAX_FRAMES_IN_FLIGHT` on every path that reaches the end of the function. -/
def drawFrame (inp : DrawFrameInputs) (rebuiltChain : ChainData)
    (st : RendererState) : List Event × Except FrameError RendererState :=
  let slot := st.currentFrame
  let ev0 := [Event.waitFence slot, Event.acquireNextImage slot]
  if inp.acquireResult = VkResult.errorOutOfDateKHR then
    (ev0 ++ [Event.recreateChain], Except.ok { st with chain := rebuiltChain })
  else if inp.acquireResult ≠ VkResult.success ∧ inp.acquireResult ≠ VkResult.suboptimalKHR then
    (ev0, Except.error FrameError.acquireImageError)
  else
    let st1 := { st with inFlightFences := st.inFlightFences.set slot false }
    let ev1 := ev0 ++ [Event.resetFence slot, Event.resetCommandBuffer slot]
    match recordCommandBuffer inp.beginOk inp.endOk st1 [] inp.imageIndex with
    | (_, Except.error e) => (ev1, Except.error e)
    | (st2, Except.ok _) =>
      let ev2 := ev1 ++ [Event.recordBuffer slot inp.imageIndex,
                         Event.updateUniformBuffer slot]
      if inp.submitResult ≠ VkResult.success then
        (ev2, Except.error FrameError.submitError)
      else
        let ev3 := ev2 ++ [Event.queueSubmit slot, Event.queuePresent inp.imageIndex]
        if inp.presentResult = VkResult.errorOutOfDateKHR
            ∨ inp.presentResult = VkResult.suboptimalKHR
            ∨ st2.framebufferResized then
          (ev3 ++ [Event.recreateChain],
           Except.ok { st2 with
                        framebufferResized := false,
                        chain := rebuiltChain,
                        currentFrame := (slot + 1) % MAX_FRAMES_IN_FLIGHT })
        else if inp.presentResult ≠ VkResult.success then
          (ev3, Except.error FrameError.presentError)
        else
          (ev3, Except.ok { st2 with currentFrame := (slot + 1) % MAX_FRAMES_IN_FLIGHT })

/-- A concrete chain used to exercise the theorems: two images with their
views and framebuffers. -/
def exChain : ChainData :=
  { swapChain := 1, images := [100, 101], imageViews := [10, 11],
    framebuffers := [20, 21], extent := ⟨800, 600⟩ }

/-- A concrete chain standing for the result of a rebuild. -/
def exNewChain : ChainData :=
  { swapChain := 7, images := [102, 103], imageViews := [12, 13],
    framebuffers := [22, 23], extent := ⟨640, 480⟩ }

/-- A concrete renderer state with both fences signaled, slot 0 current and
no pending resize. -/
def exState : RendererState :=
  { chain := exChain, renderPass := 2, pipelineLayout := 3,
    graphicsPipeline := 4, vertexBuffer := 5, indexBuffer := 6,
    descriptorSets := [30, 31], imageAvailableSemaphores := [40, 41],
    renderFinishedSemaphores := [50, 51], inFlightFences := [true, true],
    currentFrame := 0, framebufferResized := false }

/-- Frame inputs where acquisition reports the suboptimal-but-usable code and
everything else succeeds. -/
def exSuboptimalInputs : DrawFrameInputs :=
  { acquireResult := VkResult.suboptimalKHR, imageIndex := 0, beginOk := true,
    endOk := true, submitResult := VkResult.success,
    presentResult := VkResult.success }

/-- Frame inputs where acquisition reports the stale-surface code. -/
def exStaleInputs : DrawFrameInputs :=
  { acquireResult := VkResult.errorOutOfDateKHR, imageIndex := 0,
    beginOk := true, endOk := true, submitResult := VkResult.success,
    presentResult := VkResult.success }

/-- Frame inputs where everything succeeds. -/
def exSuccessInputs : DrawFrameInputs :=
  { acquireResult := VkResult.success, imageIndex := 1, beginOk := true,
    endOk := true, submitResult := VkResult.success,
    presentResult := VkResult.success }

/-- A framebuffer-size stream that reports the minimized size once and then
a usable size. -/
def exSizes : Nat → Nat × Nat := fun n => if n = 0 then (0, 0) else (800, 600)

/-- Surface capabilities whose well-defined `currentExtent` lies outside
`[minImageExtent, maxImageExtent]`. -/
def exBadCaps : VkSurfaceCapabilitiesKHR :=
  { minImageCount := 1, maxImageCount := 3, currentExtent := ⟨5, 5⟩,
    minImageExtent := ⟨10, 10⟩, maxImageExtent := ⟨20, 20⟩ }

/-- Surface capabilities carrying the `UINT32_MAX` sentinel extent and an
ordinary image-count range. -/
def exGoodCaps : VkSurfaceCapabilitiesKHR :=
  { minImageCount := 2, maxImageCount := 8,
    currentExtent := ⟨2 ^ 32 - 1, 2 ^ 32 - 1⟩, minImageExtent := ⟨100, 100⟩,
    maxImageExtent := ⟨1000, 1000⟩ }

/-- Surface capabilities at the top of the uint32 range, where
`minImageCount + 1` wraps to zero, with `maxImageCount` unbounded. -/
def exOverflowCaps : VkSurfaceCapabilitiesKHR :=
  { minImageCount := 2 ^ 32 - 1, maxImageCount := 0,
    currentExtent := ⟨800, 600⟩, minImageExtent := ⟨1, 1⟩,
    maxImageExtent := ⟨4096, 4096⟩ }

/-- A format list whose second entry is the preferred BGRA/SRGB pair. -/
def exFormats : List VkSurfaceFormatKHR := [⟨44, 0⟩, ⟨50, 0⟩, ⟨50, 1⟩]

/-- A format list with no preferred entry. -/
def exPlainFormats : List VkSurfaceFormatKHR := [⟨44, 0⟩, ⟨37, 0⟩]

/-- The event trace of a `drawFrame` iteration that reaches the present call:
wait on the slot's fence, acquire, reset the fence, reset and record the
slot's command buffer, update the uniform buffer, submit, present. -/
def usableTrace (inp : DrawFrameInputs) (st : RendererState) : List Event :=
  [Event.waitFence st.currentFrame, Event.acquireNextImage st.currentFrame,
   Event.resetFence st.currentFrame, Event.resetCommandBuffer st.currentFrame,
   Event.recordBuffer st.currentFrame inp.imageIndex,
   Event.updateUniformBuffer st.currentFrame,
   Event.queueSubmit st.currentFrame, Event.queuePresent inp.imageIndex]

/-- The state after one fully successful iteration from `exState`: slot 0's
fence unsignaled (awaiting its GPU signal) and the ring index advanced. -/
def exAdvancedState : RendererState :=
  { chain := exChain, renderPass := 2, pipelineLayout := 3,
    graphicsPipeline := 4, vertexBuffer := 5, indexBuffer := 6,
    descriptorSets := [30, 31], imageAvailableSemaphores := [40, 41],
    renderFinishedSemaphores := [50, 51], inFlightFences := [false, true],
    currentFrame := 1, framebufferResized := false }

/-- The trace of the suboptimal-acquire iteration from `exState`. -/
def exSuboptTrace : List Event :=
  [Event.waitFence 0, Event.acquireNextImage 0, Event.resetFence 0,
   Event.resetCommandBuffer 0, Event.recordBuffer 0 0,
   Event.updateUniformBuffer 0, Event.queueSubmit 0, Event.queuePresent 0]

/-- The trace of the fully successful iteration from `exState`
(image index 1). -/
def exSuccessTrace : List Event :=
  [Event.waitFence 0, Event.acquireNextImage 0, Event.resetFence 0,
   Event.resetCommandBuffer 0, Event.recordBuffer 0 1,
   Event.updateUniformBuffer 0, Event.queueSubmit 0, Event.queuePresent 1]

/-- Frame inputs whose present call reports the suboptimal code. -/
def exPresentSuboptInputs : DrawFrameInputs :=
  { acquireResult := VkResult.success, imageIndex := 0, beginOk := true,
    endOk := true, submitResult := VkResult.success,
    presentResult := VkResult.suboptimalKHR }

/-- The recreation trace over `exSizes` from `exState`: one minimized poll,
one nonzero poll, the event wait, device idle, teardown, rebuild. -/
def exRecreateTrace : List Event :=
  [Event.pollFramebufferSize 0 0, Event.pollFramebufferSize 800 600,
   Event.waitEvents, Event.deviceWaitIdle, Event.destroyImageView 10,
   Event.destroyImageView 11, Event.destroyFramebuffer 20,
   Event.destroyFramebuffer 21, Event.destroySwapchain 1,
   Event.createSwapChain, Event.createImageViews, Event.createFramebuffers]

/-- The clamp `std::clamp` lands in `[lo, hi]` whenever the bounds are ordered. -/
theorem stdClamp_bounds (v lo hi : Nat) (h : lo ≤ hi) :
    lo ≤ stdClamp v lo hi ∧ stdClamp v lo hi ≤ hi := by
  unfold stdClamp
  split
  · omega
  · split <;> omega

/-- C10: for every command buffer and image index (and any begin/end call
results), `recordCommandBuffer` mutates only the passed command buffer — the
renderer state it returns, with every field (chain objects, extent, render
pass, pipeline, synchronization objects, current frame index), is exactly
the state it was given. -/
theorem recordCommandBuffer_state_unchanged (beginOk endOk : Bool)
    (st : RendererState) (commandBuffer : List Cmd) (imageIndex : Nat) :
    (recordCommandBuffer beginOk endOk st commandBuffer imageIndex).1 = st := by
  unfold recordCommandBuffer
  split
  · rfl
  · split
    · split <;> rfl
    · rfl
    · rfl

/-- C2, counterexample: on a concrete chain the destroy sequence
`cleanupSwapChain` issues is not the framebuffers-then-views-then-swapchain
order the specification claims. -/
theorem cleanupSwapChain_not_spec_order :
    cleanupSwapChain exState ≠ specCleanupOrder exState := by decide

/-- C2, amended: the teardown destroys all image views first, then all
framebuffers, then — as the final call — the swapchain object: every
view-destroy call precedes every framebuffer-destroy call, every
framebuffer-destroy call precedes the last call, the last call destroys the
swapchain handle, and every view and framebuffer is destroyed. -/
theorem cleanupSwapChain_order (st : RendererState) :
    (cleanupSwapChain st).getLast? = some (Event.destroySwapchain st.chain.swapChain)
    ∧ (∀ i j e f, (cleanupSwapChain st).get? i = some e →
        (cleanupSwapChain st).get? j = some f →
        Event.isDestroyImageView e = true → Event.isDestroyFramebuffer f = true →
        i < j)
    ∧ (∀ j f, (cleanupSwapChain st).get? j = some f →
        Event.isDestroyFramebuffer f = true → j + 1 < (cleanupSwapChain st).length)
    ∧ (cleanupSwapChain st).length
        = st.chain.imageViews.length + st.chain.framebuffers.length + 1 := by
  have hlen : (cleanupSwapChain st).length
      = st.chain.imageViews.length + st.chain.framebuffers.length + 1 := by
    simp [cleanupSwapChain]
    omega
  refine ⟨?_, ?_, ?_, hlen⟩
  · exact List.getLast?_concat _
  · intro i j e f hi hj hie hjf
    rw [List.get?_eq_getElem?] at hi hj
    unfold cleanupSwapChain at hi hj
    rw [List.append_assoc] at hi hj
    have hilt : i < (st.chain.imageViews.map Event.destroyImageView).length := by
      by_contra hle
      push_neg at hle
      rw [List.getElem?_append_right hle] at hi
      obtain ⟨hlt, hget⟩ := List.getElem?_eq_some.1 hi
      have hmem : e ∈ st.chain.framebuffers.map Event.destroyFramebuffer
          ++ [Event.destroySwapchain st.chain.swapChain] :=
        hget ▸ List.getElem_mem hlt
      rcases List.mem_append.1 hmem with hmb | hmc
      · rcases List.mem_map.1 hmb with ⟨x, _, rfl⟩
        simp [Event.isDestroyImageView] at hie
      · rw [List.mem_singleton.1 hmc] at hie
        simp [Event.isDestroyImageView] at hie
    have hjge : (st.chain.imageViews.map Event.destroyImageView).length ≤ j := by
      by_contra hlt
      push_neg at hlt
      rw [List.getElem?_append_left hlt] at hj
      obtain ⟨hlt2, hget⟩ := List.getElem?_eq_some.1 hj
      have hmem : f ∈ st.chain.imageViews.map Event.destroyImageView :=
        hget ▸ List.getElem_mem hlt2
      rcases List.mem_map.1 hmem with ⟨x, _, rfl⟩
      simp [Event.isDestroyFramebuffer] at hjf
    omega
  · intro j f hj hjf
    rw [List.get?_eq_getElem?] at hj
    have hjlt : j < (cleanupSwapChain st).length := by
      obtain ⟨hlt, _⟩ := List.getElem?_eq_some.1 hj
      exact hlt
    have hne : j ≠ st.chain.imageViews.length + st.chain.framebuffers.length := by
      intro hEq
      unfold cleanupSwapChain at hj
      have hge : (st.chain.imageViews.map Event.destroyImageView
          ++ st.chain.framebuffers.map Event.destroyFramebuffer).length ≤ j := by
        simp [hEq]
      rw [List.getElem?_append_right hge] at hj
      have hz : j - (st.chain.imageViews.map Event.destroyImageView
          ++ st.chain.framebuffers.map Event.destroyFramebuffer).length = 0 := by
        simp [hEq]
      rw [hz] at hj
      simp at hj
      rw [← hj] at hjf
      simp [Event.isDestroyFramebuffer] at hjf
    omega

/-- C4, counterexample: on surface capabilities whose well-defined
`currentExtent` lies below `minImageExtent`, `chooseSwapExtent` returns an
extent outside `[minImageExtent, maxImageExtent]`. -/
theorem chooseSwapExtent_claim_false :
    ¬(exBadCaps.minImageExtent.width ≤ (chooseSwapExtent exBadCaps 800 600).width
      ∧ (chooseSwapExtent exBadCaps 800 600).width ≤ exBadCaps.maxImageExtent.width
      ∧ exBadCaps.minImageExtent.height ≤ (chooseSwapExtent exBadCaps 800 600).height
      ∧ (chooseSwapExtent exBadCaps 800 600).height ≤ exBadCaps.maxImageExtent.height) := by
  decide

/-- C4, amended: for capabilities with ordered extent bounds whose
well-defined `currentExtent` (when not the `UINT32_MAX` sentinel) already
lies within the bounds — which the Vulkan surface contract guarantees — the
extent `chooseSwapExtent` returns lies within
`[minImageExtent, maxImageExtent]` component-wise, for any reported
framebuffer size. -/
theorem chooseSwapExtent_within_bounds (capabilities : VkSurfaceCapabilitiesKHR)
    (fbWidth fbHeight : Nat)
    (hw : capabilities.minImageExtent.width ≤ capabilities.maxImageExtent.width)
    (hh : capabilities.minImageExtent.height ≤ capabilities.maxImageExtent.height)
    (hcur : capabilities.currentExtent.width ≠ UINT32_MAX →
      capabilities.minImageExtent.width ≤ capabilities.currentExtent.width
        ∧ capabilities.currentExtent.width ≤ capabilities.maxImageExtent.width
        ∧ capabilities.minImageExtent.height ≤ capabilities.currentExtent.height
        ∧ capabilities.currentExtent.height ≤ capabilities.maxImageExtent.height) :
    capabilities.minImageExtent.width ≤ (chooseSwapExtent capabilities fbWidth fbHeight).width
    ∧ (chooseSwapExtent capabilities fbWidth fbHeight).width ≤ capabilities.maxImageExtent.width
    ∧ capabilities.minImageExtent.height ≤ (chooseSwapExtent capabilities fbWidth fbHeight).height
    ∧ (chooseSwapExtent capabilities fbWidth fbHeight).height ≤ capabilities.maxImageExtent.height := by
  unfold chooseSwapExtent
  split
  · next hsent =>
    obtain ⟨a, b, c, d⟩ := hcur hsent
    exact ⟨a, b, c, d⟩
  · obtain ⟨a, b⟩ := stdClamp_bounds fbWidth _ _ hw
    obtain ⟨c, d⟩ := stdClamp_bounds fbHeight _ _ hh
    exact ⟨a, b, c, d⟩

/-- C4, witness: the amended bound holds on the sentinel-extent capabilities
`exGoodCaps`. -/
theorem chooseSwapExtent_within_bounds_witness :
    exGoodCaps.minImageExtent.width ≤ (chooseSwapExtent exGoodCaps 800 600).width
    ∧ (chooseSwapExtent exGoodCaps 800 600).width ≤ exGoodCaps.maxImageExtent.width
    ∧ exGoodCaps.minImageExtent.height ≤ (chooseSwapExtent exGoodCaps 800 600).height
    ∧ (chooseSwapExtent exGoodCaps 800 600).height ≤ exGoodCaps.maxImageExtent.height :=
  chooseSwapExtent_within_bounds exGoodCaps 800 600 (by decide) (by decide) (by decide)

/-- C8, counterexample: at `minImageCount = 2^32 - 1` with unbounded
`maxImageCount`, the uint32 sum wraps and `createSwapChain` requests zero
images, not `minImageCount + 1`. -/
theorem createSwapChainImageCount_claim_false :
    exOverflowCaps.maxImageCount = 0
    ∧ createSwapChainImageCount exOverflowCaps = 0
    ∧ createSwapChainImageCount exOverflowCaps ≠ exOverflowCaps.minImageCount + 1 := by
  decide

/-- C8, amended: whenever `minImageCount + 1` does not overflow uint32, the
requested image count equals `minImageCount + 1`, lowered to `maxImageCount`
exactly when the latter is nonzero and exceeded (zero meaning unbounded). -/
theorem createSwapChainImageCount_spec (capabilities : VkSurfaceCapabilitiesKHR)
    (hof : capabilities.minImageCount + 1 < 2 ^ 32) :
    createSwapChainImageCount capabilities =
      if capabilities.maxImageCount ≠ 0
          ∧ capabilities.minImageCount + 1 > capabilities.maxImageCount then
        capabilities.maxImageCount
      else
        capabilities.minImageCount + 1 := by
  unfold createSwapChainImageCount
  rw [Nat.mod_eq_of_lt hof]
  simp only [gt_iff_lt, Nat.pos_iff_ne_zero]

/-- C8, witness: the amended count law evaluated at `exGoodCaps`. -/
theorem createSwapChainImageCount_spec_witness :
    createSwapChainImageCount exGoodCaps =
      if exGoodCaps.maxImageCount ≠ 0
          ∧ exGoodCaps.minImageCount + 1 > exGoodCaps.maxImageCount then
        exGoodCaps.maxImageCount
      else
        exGoodCaps.minImageCount + 1 :=
  createSwapChainImageCount_spec exGoodCaps (by decide)

/-- A scan that returns the first element satisfying `p` when one exists at
position `i` and every earlier position fails `p`. -/
theorem find?_first {α : Type} (p : α → Bool) :
    ∀ (l : List α) (i : Nat) (f : α), l.get? i = some f → p f = true →
      (∀ j g, j < i → l.get? j = some g → p g = false) → l.find? p = some f := by
  intro l
  induction l with
  | nil => intro i f h _ _; simp at h
  | cons a t ih =>
    intro i f hget hp hmin
    cases i with
    | zero =>
      simp at hget
      subst hget
      simp [List.find?_cons, hp]
    | succ n =>
      have ha : p a = false := hmin 0 a (Nat.succ_pos n) rfl
      simp [List.find?_cons, ha]
      exact ih n f hget hp (fun j g hj hg => hmin (j + 1) g (by omega) hg)

/-- C9: for every non-empty format list, `chooseSwapSurfaceFormat` returns an
element of the list; it returns the first entry pairing the BGRA 8-bit
format with the non-linear SRGB color space whenever the positions before it
carry no such entry; and when no entry matches it returns the first element
of the list. -/
theorem chooseSwapSurfaceFormat_spec (availableFormats : List VkSurfaceFormatKHR)
    (hne : availableFormats ≠ []) :
    (∃ f, chooseSwapSurfaceFormat availableFormats = some f ∧ f ∈ availableFormats)
    ∧ (∀ i f, availableFormats.get? i = some f → isPreferredSurfaceFormat f = true →
        (∀ j g, j < i → availableFormats.get? j = some g →
          isPreferredSurfaceFormat g = false) →
        chooseSwapSurfaceFormat availableFormats = some f)
    ∧ ((∀ g ∈ availableFormats, isPreferredSurfaceFormat g = false) →
        chooseSwapSurfaceFormat availableFormats = availableFormats.head?) := by
  refine ⟨?_, ?_, ?_⟩
  · unfold chooseSwapSurfaceFormat
    cases hfind : availableFormats.find? (fun f => isPreferredSurfaceFormat f) with
    | some f => exact ⟨f, rfl, List.mem_of_find?_eq_some hfind⟩
    | none =>
      cases availableFormats with
      | nil => exact absurd rfl hne
      | cons a t => exact ⟨a, rfl, List.mem_cons_self a t⟩
  · intro i f h1 h2 h3
    have hfind := find?_first (fun f => isPreferredSurfaceFormat f)
      availableFormats i f h1 h2 h3
    simp [chooseSwapSurfaceFormat, hfind]
  · intro hall
    cases hfind : availableFormats.find? (fun f => isPreferredSurfaceFormat f) with
    | some f =>
      have hp := List.find?_some hfind
      have hmem := List.mem_of_find?_eq_some hfind
      rw [hall f hmem] at hp
      cases hp
    | none => simp [chooseSwapSurfaceFormat, hfind]

/-- C9, witness: on `exFormats` the chosen format is the preferred second
entry and is a member of the list. -/
theorem chooseSwapSurfaceFormat_spec_witness :
    ∃ f, chooseSwapSurfaceFormat exFormats = some f ∧ f ∈ exFormats :=
  (chooseSwapSurfaceFormat_spec exFormats (by decide)).1

/-- C2, witness: on the concrete state `exState` the last destroy call is the
swapchain one, and the first destroy call (an image view, position 0)
precedes the first framebuffer destroy call (position 2). -/
theorem cleanupSwapChain_order_witness :
    (cleanupSwapChain exState).getLast?
      = some (Event.destroySwapchain exState.chain.swapChain) ∧ (0 : Nat) < 2 :=
  ⟨(cleanupSwapChain_order exState).1,
   (cleanupSwapChain_order exState).2.1 0 2 (Event.destroyImageView 10)
     (Event.destroyFramebuffer 20) (by decide) (by decide) (by decide) (by decide)⟩

/-- Recording returns the state it was given on every path. -/
theorem recordCommandBuffer_fst (beginOk endOk : Bool) (st : RendererState)
    (commandBuffer : List Cmd) (imageIndex : Nat) :
    (recordCommandBuffer beginOk endOk st commandBuffer imageIndex).1 = st := by
  unfold recordCommandBuffer
  split
  · rfl
  · split
    · split <;> rfl
    · rfl
    · rfl

/-- Recording succeeds when the begin and end calls succeed and the
framebuffer and descriptor-set indices are in range. -/
theorem recordCommandBuffer_ok (beginOk endOk : Bool) (st : RendererState)
    (commandBuffer : List Cmd) (imageIndex : Nat)
    (hb : beginOk = true) (he : endOk = true)
    (hfb : imageIndex < st.chain.framebuffers.length)
    (hds : st.currentFrame < st.descriptorSets.length) :
    ∃ recorded, recordCommandBuffer beginOk endOk st commandBuffer imageIndex
      = (st, Except.ok recorded) := by
  subst hb
  subst he
  have hfbeq : st.chain.framebuffers.get? imageIndex
      = some (st.chain.framebuffers.get ⟨imageIndex, hfb⟩) := by
    rw [List.get?_eq_getElem?, List.get_eq_getElem]
    exact List.getElem?_eq_some.2 ⟨hfb, rfl⟩
  have hdseq : st.descriptorSets.get? st.currentFrame
      = some (st.descriptorSets.get ⟨st.currentFrame, hds⟩) := by
    rw [List.get?_eq_getElem?, List.get_eq_getElem]
    exact List.getElem?_eq_some.2 ⟨hds, rfl⟩
  unfold recordCommandBuffer
  rw [hfbeq, hdseq]
  exact ⟨_, rfl⟩

/-- Evaluation of `drawFrame` when the acquire call reports a stale
surface. -/
theorem drawFrame_stale_eq (inp : DrawFrameInputs) (rebuiltChain : ChainData)
    (st : RendererState) (h : inp.acquireResult = VkResult.errorOutOfDateKHR) :
    drawFrame inp rebuiltChain st
      = ([Event.waitFence st.currentFrame, Event.acquireNextImage st.currentFrame,
          Event.recreateChain], Except.ok { st with chain := rebuiltChain }) := by
  simp [drawFrame, h]

/-- C1: when acquisition reports the stale surface, `drawFrame` triggers
swapchain recreation and returns early: thereafter the trace holds no fence
reset, no command-buffer reset or recording and no submission, the slot
fences are exactly as before the iteration, and the current frame index is
unchanged. -/
theorem drawFrame_stale_abandons (inp : DrawFrameInputs) (rebuiltChain : ChainData)
    (st : RendererState) (h : inp.acquireResult = VkResult.errorOutOfDateKHR) :
    Event.recreateChain ∈ (drawFrame inp rebuiltChain st).1
    ∧ (∀ s, Event.resetFence s ∉ (drawFrame inp rebuiltChain st).1)
    ∧ (∀ s, Event.resetCommandBuffer s ∉ (drawFrame inp rebuiltChain st).1)
    ∧ (∀ s k, Event.recordBuffer s k ∉ (drawFrame inp rebuiltChain st).1)
    ∧ (∀ s, Event.queueSubmit s ∉ (drawFrame inp rebuiltChain st).1)
    ∧ (∀ k, Event.queuePresent k ∉ (drawFrame inp rebuiltChain st).1)
    ∧ ∃ st', (drawFrame inp rebuiltChain st).2 = Except.ok st'
        ∧ st'.inFlightFences = st.inFlightFences
        ∧ st'.currentFrame = st.currentFrame := by
  rw [drawFrame_stale_eq inp rebuiltChain st h]
  refine ⟨by simp, ?_, ?_, ?_, ?_, ?_, ⟨_, rfl, rfl, rfl⟩⟩
  · intro s
    simp
  · intro s
    simp
  · intro s k
    simp
  · intro s
    simp
  · intro k
    simp

/-- C1, witness: on `exState` with stale-acquire inputs the iteration ends
with the fences and the frame index untouched. -/
theorem drawFrame_stale_abandons_witness :
    ∃ st', (drawFrame exStaleInputs exNewChain exState).2 = Except.ok st'
      ∧ st'.inFlightFences = exState.inFlightFences
      ∧ st'.currentFrame = exState.currentFrame :=
  (drawFrame_stale_abandons exStaleInputs exNewChain exState rfl).2.2.2.2.2.2

/-- Any iteration that returns normally without a stale acquire advances the
ring index by one modulo `MAX_FRAMES_IN_FLIGHT`. -/
theorem drawFrame_ok_frame_advance (inp : DrawFrameInputs) (rebuiltChain : ChainData)
    (st : RendererState) (tr : List Event) (st' : RendererState)
    (ha : inp.acquireResult ≠ VkResult.errorOutOfDateKHR)
    (h : drawFrame inp rebuiltChain st = (tr, Except.ok st')) :
    st'.currentFrame = (st.currentFrame + 1) % MAX_FRAMES_IN_FLIGHT := by
  simp only [drawFrame] at h
  rw [if_neg ha] at h
  by_cases hb : inp.acquireResult ≠ VkResult.success
      ∧ inp.acquireResult ≠ VkResult.suboptimalKHR
  · rw [if_pos hb] at h
    simp at h
  · rw [if_neg hb] at h
    rcases hrec : recordCommandBuffer inp.beginOk inp.endOk
        { st with inFlightFences := st.inFlightFences.set st.currentFrame false } []
        inp.imageIndex with ⟨st2, res⟩
    rw [hrec] at h
    cases res with
    | error e => simp at h
    | ok recorded =>
      dsimp only at h
      by_cases hs : inp.submitResult ≠ VkResult.success
      · rw [if_pos hs] at h
        simp at h
      · rw [if_neg hs] at h
        by_cases hp : inp.presentResult = VkResult.errorOutOfDateKHR
            ∨ inp.presentResult = VkResult.suboptimalKHR
            ∨ st2.framebufferResized
        · rw [if_pos hp] at h
          injection h with h1 h2
          injection h2 with h3
          rw [← h3]
        · rw [if_neg hp] at h
          by_cases hq : inp.presentResult ≠ VkResult.success
          · rw [if_pos hq] at h
            simp at h
          · rw [if_neg hq] at h
            injection h with h1 h2
            injection h2 with h3
            rw [← h3]

/-- C3: an iteration that runs to completion advances the frame index by
exactly one modulo `MAX_FRAMES_IN_FLIGHT` (also when a rebuild follows the
present call), an iteration abandoned at a stale acquire leaves it
unchanged, and with `MAX_FRAMES_IN_FLIGHT = 2` completed iterations
alternate the slots 0, 1, 0, 1, …. -/
theorem drawFrame_frame_index (inp : DrawFrameInputs) (rebuiltChain : ChainData)
    (st : RendererState) (tr : List Event) (st' : RendererState)
    (h : drawFrame inp rebuiltChain st = (tr, Except.ok st')) :
    (inp.acquireResult = VkResult.errorOutOfDateKHR →
      st'.currentFrame = st.currentFrame)
    ∧ (inp.acquireResult ≠ VkResult.errorOutOfDateKHR →
      st'.currentFrame = (st.currentFrame + 1) % MAX_FRAMES_IN_FLIGHT)
    ∧ (st.currentFrame = 0 → inp.acquireResult ≠ VkResult.errorOutOfDateKHR →
      st'.currentFrame = 1)
    ∧ (st.currentFrame = 1 → inp.acquireResult ≠ VkResult.errorOutOfDateKHR →
      st'.currentFrame = 0) := by
  by_cases ha : inp.acquireResult = VkResult.errorOutOfDateKHR
  · rw [drawFrame_stale_eq inp rebuiltChain st ha] at h
    injection h with h1 h2
    injection h2 with h3
    refine ⟨fun _ => ?_, fun hn => absurd ha hn, fun _ hn => absurd ha hn,
      fun _ hn => absurd ha hn⟩
    rw [← h3]
  · have key := drawFrame_ok_frame_advance inp rebuiltChain st tr st' ha h
    refine ⟨fun hc => absurd hc ha, fun _ => key, fun h0 _ => ?_, fun h1 _ => ?_⟩
    · rw [key, h0]
      decide
    · rw [key, h1]
      decide

/-- C3, witness: one fully successful iteration from slot 0 lands on
slot 1. -/
theorem drawFrame_frame_index_witness : exAdvancedState.currentFrame = 1 :=
  (drawFrame_frame_index exSuccessInputs exNewChain exState exSuccessTrace
    exAdvancedState (by decide)).2.2.1 rfl (by decide)

/-- C5, counterexample: with a suboptimal acquire and a successful present
and no resize flag, the iteration records, submits and presents, but no
swapchain rebuild happens after the present — nothing schedules one. -/
theorem drawFrame_suboptimal_no_rebuild :
    exSuboptimalInputs.acquireResult = VkResult.suboptimalKHR
    ∧ Event.queuePresent 0 ∈ (drawFrame exSuboptimalInputs exNewChain exState).1
    ∧ Event.recreateChain ∉ (drawFrame exSuboptimalInputs exNewChain exState).1
    ∧ (drawFrame exSuboptimalInputs exNewChain exState).2
        = Except.ok exAdvancedState := by
  decide

/-- C5, amended: when acquisition reports suboptimal-but-usable, the
iteration that returns normally has recorded, submitted and presented the
frame; a swapchain rebuild follows the present exactly when the present
result itself is stale or suboptimal or the resize flag was set — a
suboptimal acquire alone does not schedule one. -/
theorem drawFrame_suboptimal_proceeds (inp : DrawFrameInputs)
    (rebuiltChain : ChainData) (st : RendererState) (tr : List Event)
    (st' : RendererState) (ha : inp.acquireResult = VkResult.suboptimalKHR)
    (h : drawFrame inp rebuiltChain st = (tr, Except.ok st')) :
    Event.recordBuffer st.currentFrame inp.imageIndex ∈ tr
    ∧ Event.queueSubmit st.currentFrame ∈ tr
    ∧ Event.queuePresent inp.imageIndex ∈ tr
    ∧ (Event.recreateChain ∈ tr ↔
        (inp.presentResult = VkResult.errorOutOfDateKHR
          ∨ inp.presentResult = VkResult.suboptimalKHR
          ∨ st.framebufferResized = true)) := by
  have ha1 : inp.acquireResult ≠ VkResult.errorOutOfDateKHR := by
    rw [ha]
    intro hcontra
    cases hcontra
  have hb : ¬(inp.acquireResult ≠ VkResult.success
      ∧ inp.acquireResult ≠ VkResult.suboptimalKHR) := by
    rw [ha]
    simp
  simp only [drawFrame] at h
  rw [if_neg ha1, if_neg hb] at h
  rcases hrec : recordCommandBuffer inp.beginOk inp.endOk
      { st with inFlightFences := st.inFlightFences.set st.currentFrame false } []
      inp.imageIndex with ⟨st2, res⟩
  rw [hrec] at h
  have hst2 : st2 = { st with
      inFlightFences := st.inFlightFences.set st.currentFrame false } := by
    have hfst := recordCommandBuffer_fst inp.beginOk inp.endOk
      { st with inFlightFences := st.inFlightFences.set st.currentFrame false } []
      inp.imageIndex
    rw [hrec] at hfst
    exact hfst
  cases res with
  | error e => simp at h
  | ok recorded =>
    dsimp only at h
    by_cases hs : inp.submitResult ≠ VkResult.success
    · rw [if_pos hs] at h
      simp at h
    · rw [if_neg hs] at h
      have hflag : st2.framebufferResized = st.framebufferResized := by
        rw [hst2]
      by_cases hp : inp.presentResult = VkResult.errorOutOfDateKHR
          ∨ inp.presentResult = VkResult.suboptimalKHR
          ∨ st2.framebufferResized
      · rw [if_pos hp] at h
        injection h with h1 h2
        rw [← h1]
        rw [hflag] at hp
        refine ⟨by simp, by simp, by simp, ?_⟩
        exact iff_of_true (by simp) hp
      · rw [if_neg hp] at h
        rw [hflag] at hp
        by_cases hq : inp.presentResult ≠ VkResult.success
        · rw [if_pos hq] at h
          simp at h
        · rw [if_neg hq] at h
          injection h with h1 h2
          rw [← h1]
          refine ⟨by simp, by simp, by simp, ?_⟩
          exact iff_of_false (by simp) hp

/-- C5, witness: the amended statement evaluated on the concrete suboptimal
iteration. -/
theorem drawFrame_suboptimal_proceeds_witness :
    Event.queuePresent 0 ∈ exSuboptTrace :=
  (drawFrame_suboptimal_proceeds exSuboptimalInputs exNewChain exState
    exSuboptTrace exAdvancedState rfl (by decide)).2.2.1

/-- Evaluation of `drawFrame` on the path that reaches the present call:
usable acquire, successful begin/end and submit, in-range indices. -/
theorem drawFrame_usable_eq (inp : DrawFrameInputs) (rebuiltChain : ChainData)
    (st : RendererState)
    (ha : inp.acquireResult = VkResult.success
      ∨ inp.acquireResult = VkResult.suboptimalKHR)
    (hbg : inp.beginOk = true) (he : inp.endOk = true)
    (hfb : inp.imageIndex < st.chain.framebuffers.length)
    (hds : st.currentFrame < st.descriptorSets.length)
    (hs : inp.submitResult = VkResult.success) :
    drawFrame inp rebuiltChain st =
      if inp.presentResult = VkResult.errorOutOfDateKHR
          ∨ inp.presentResult = VkResult.suboptimalKHR
          ∨ st.framebufferResized then
        (usableTrace inp st ++ [Event.recreateChain],
         Except.ok { st with
            inFlightFences := st.inFlightFences.set st.currentFrame false,
            framebufferResized := false, chain := rebuiltChain,
            currentFrame := (st.currentFrame + 1) % MAX_FRAMES_IN_FLIGHT })
      else if inp.presentResult ≠ VkResult.success then
        (usableTrace inp st, Except.error FrameError.presentError)
      else
        (usableTrace inp st,
         Except.ok { st with
            inFlightFences := st.inFlightFences.set st.currentFrame false,
            currentFrame := (st.currentFrame + 1) % MAX_FRAMES_IN_FLIGHT }) := by
  have ha1 : inp.acquireResult ≠ VkResult.errorOutOfDateKHR := by
    rcases ha with ha | ha <;> rw [ha] <;> intro hcontra <;> cases hcontra
  have hb : ¬(inp.acquireResult ≠ VkResult.success
      ∧ inp.acquireResult ≠ VkResult.suboptimalKHR) := by
    rcases ha with ha | ha <;> rw [ha] <;> simp
  obtain ⟨recorded, hrec⟩ := recordCommandBuffer_ok inp.beginOk inp.endOk
    { st with inFlightFences := st.inFlightFences.set st.currentFrame false } []
    inp.imageIndex hbg he hfb hds
  simp only [drawFrame]
  rw [if_neg ha1, if_neg hb, hrec]
  dsimp only
  rw [if_neg (by rw [hs]; simp)]
  split
  · simp [usableTrace]
  · split
    · simp [usableTrace]
    · simp [usableTrace]

/-- C6: once the iteration reaches the present call, a rebuild (with the
resize flag cleared) follows exactly when the present result is stale or
suboptimal or the resize flag was set; a fatal present error is raised
exactly when the present result is any other non-success code; no other
case is fatal at present. -/
theorem drawFrame_present_outcome (inp : DrawFrameInputs)
    (rebuiltChain : ChainData) (st : RendererState)
    (ha : inp.acquireResult = VkResult.success
      ∨ inp.acquireResult = VkResult.suboptimalKHR)
    (hbg : inp.beginOk = true) (he : inp.endOk = true)
    (hfb : inp.imageIndex < st.chain.framebuffers.length)
    (hds : st.currentFrame < st.descriptorSets.length)
    (hs : inp.submitResult = VkResult.success) :
    ((drawFrame inp rebuiltChain st).2 = Except.error FrameError.presentError ↔
      (inp.presentResult ≠ VkResult.success
        ∧ ¬(inp.presentResult = VkResult.errorOutOfDateKHR
            ∨ inp.presentResult = VkResult.suboptimalKHR
            ∨ st.framebufferResized = true)))
    ∧ (Event.recreateChain ∈ (drawFrame inp rebuiltChain st).1 ↔
        (inp.presentResult = VkResult.errorOutOfDateKHR
          ∨ inp.presentResult = VkResult.suboptimalKHR
          ∨ st.framebufferResized = true))
    ∧ ((inp.presentResult = VkResult.errorOutOfDateKHR
          ∨ inp.presentResult = VkResult.suboptimalKHR
          ∨ st.framebufferResized = true) →
        ∃ st', (drawFrame inp rebuiltChain st).2 = Except.ok st'
          ∧ st'.framebufferResized = false) := by
  rw [drawFrame_usable_eq inp rebuiltChain st ha hbg he hfb hds hs]
  by_cases hp : inp.presentResult = VkResult.errorOutOfDateKHR
      ∨ inp.presentResult = VkResult.suboptimalKHR
      ∨ st.framebufferResized
  · rw [if_pos hp]
    refine ⟨iff_of_false (by simp) (fun hcontra => hcontra.2 hp), ?_, ?_⟩
    · exact iff_of_true (by simp) hp
    · intro _
      exact ⟨_, rfl, rfl⟩
  · rw [if_neg hp]
    by_cases hq : inp.presentResult ≠ VkResult.success
    · rw [if_pos hq]
      refine ⟨iff_of_true rfl ⟨hq, hp⟩, iff_of_false (by simp [usableTrace]) hp,
        fun hcontra => absurd hcontra hp⟩
    · rw [if_neg hq]
      refine ⟨iff_of_false (by simp) (fun hcontra => hq hcontra.1),
        iff_of_false (by simp [usableTrace]) hp, fun hcontra => absurd hcontra hp⟩

/-- C6, witness: a suboptimal present result on `exState` ends in a rebuild
with the resize flag cleared. -/
theorem drawFrame_present_outcome_witness :
    ∃ st', (drawFrame exPresentSuboptInputs exNewChain exState).2 = Except.ok st'
      ∧ st'.framebufferResized = false :=
  (drawFrame_present_outcome exPresentSuboptInputs exNewChain exState
    (Or.inl rfl) rfl rfl (by decide) (by decide) rfl).2.2 (Or.inr (Or.inl rfl))

/-- The busy-wait returns the first poll index at or after its start whose
reported size is nonzero; every index in between reported a zero size. -/
theorem minimizedWaitLoop_spec (sizes : Nat → Nat × Nat) :
    ∀ fuel k0 k, minimizedWaitLoop sizes fuel k0 = some k →
      k0 ≤ k ∧ (∀ i, k0 ≤ i → i < k → framebufferSizeIsZero (sizes i) = true)
        ∧ framebufferSizeIsZero (sizes k) = false := by
  intro fuel
  induction fuel with
  | zero =>
    intro k0 k h
    simp [minimizedWaitLoop] at h
  | succ n ih =>
    intro k0 k h
    unfold minimizedWaitLoop at h
    by_cases hz : framebufferSizeIsZero (sizes k0) = true
    · rw [if_pos hz] at h
      obtain ⟨hle, hmid, hend⟩ := ih (k0 + 1) k h
      refine ⟨by omega, ?_, hend⟩
      intro i h1 h2
      by_cases hik : i = k0
      · rw [hik]
        exact hz
      · exact hmid i (by omega) h2
    · rw [if_neg hz] at h
      injection h with hk
      subst hk
      exact ⟨Nat.le_refl k0, fun i h1 h2 => absurd (Nat.lt_of_le_of_lt h1 h2)
        (Nat.lt_irrefl k0), by simpa using hz⟩

/-- C7: whenever the recreation operation completes, there is a poll index
`k` such that every earlier poll reported a zero-sized framebuffer, poll `k`
reported a nonzero size, and the whole trace is the polls up to `k`
(containing only size polls and event waits — no destruction or creation)
followed by the device-idle wait, the teardown of the old chain, and the
three rebuild steps. -/
theorem recreateSwapChain_waits_for_nonzero (sizes : Nat → Nat × Nat)
    (fuel : Nat) (st : RendererState) (newChain : ChainData) (tr : List Event)
    (st' : RendererState)
    (h : recreateSwapChain sizes fuel st newChain = some (tr, st')) :
    ∃ k, (∀ i, i < k → framebufferSizeIsZero (sizes i) = true)
      ∧ framebufferSizeIsZero (sizes k) = false
      ∧ tr = pollTrace sizes k ++ [Event.deviceWaitIdle] ++ cleanupSwapChain st
          ++ [Event.createSwapChain, Event.createImageViews, Event.createFramebuffers]
      ∧ (∀ e ∈ pollTrace sizes k, Event.isPollOrWait e = true) := by
  unfold recreateSwapChain at h
  rcases hloop : minimizedWaitLoop sizes fuel 0 with _ | k
  · rw [hloop] at h
    simp at h
  · rw [hloop] at h
    simp only [Option.some.injEq, Prod.mk.injEq] at h
    obtain ⟨htr, hst⟩ := h
    obtain ⟨hle, hmid, hend⟩ := minimizedWaitLoop_spec sizes fuel 0 k hloop
    refine ⟨k, fun i hi => hmid i (Nat.zero_le i) hi, hend, ?_, ?_⟩
    · rw [← htr]
    · intro e he
      unfold pollTrace at he
      rcases List.mem_cons.1 he with rfl | hmem
      · rfl
      · rcases List.mem_flatten.1 hmem with ⟨l, hl, hel⟩
        rcases List.mem_map.1 hl with ⟨i, _, rfl⟩
        simp only [List.mem_cons, List.not_mem_nil, or_false] at hel
        rcases hel with rfl | rfl
        · rfl
        · rfl

/-- C7, witness: over a size stream that is minimized for one poll, the
recreation trace polls twice, then waits idle, tears down and rebuilds. -/
theorem recreateSwapChain_waits_witness :
    ∃ k, (∀ i, i < k → framebufferSizeIsZero (exSizes i) = true)
      ∧ framebufferSizeIsZero (exSizes k) = false
      ∧ exRecreateTrace = pollTrace exSizes k ++ [Event.deviceWaitIdle]
          ++ cleanupSwapChain exState
          ++ [Event.createSwapChain, Event.createImageViews, Event.createFramebuffers]
      ∧ (∀ e ∈ pollTrace exSizes k, Event.isPollOrWait e = true) :=
  recreateSwapChain_waits_for_nonzero exSizes 5 exState exNewChain
    exRecreateTrace { exState with chain := exNewChain } (by decide)

end VulkanRenderer
